import Mathlib

/-
Verification of the tool-catalog markdown renderer
(scripts/generate-tool-catalog-markdown.py).

The script is embedded shallowly: JSON values parsed by `json.load` are
modelled by the inductive type `Json` (objects as insertion-ordered
association lists, mirroring Python dicts), and each Python construct the
script uses (`dict.get`, `in`, truthiness, `len`, iteration, `str.join`,
f-string conversion via `str()`, `str.title()`, `str.lower()`) is given a
definition with Python's semantics, raising the corresponding Python
exception message through the `Except String` monad where Python would
raise.  The generator functions of the script are then transcribed
line-by-line over these primitives.
-/

namespace ToolCatalog

/-- A JSON value as produced by Python's `json.load`: objects keep key
insertion order (Python dicts are ordered) and carry each key at most once
(`json.load` collapses duplicate keys, keeping the last value); numbers
are modelled as integers (no number in the catalog is ever inspected by
the script). -/
inductive Json where
  | null : Json
  | bool : Bool → Json
  | num : Int → Json
  | str : String → Json
  | arr : List Json → Json
  | obj : List (String × Json) → Json
deriving Repr

/-- Python's type name for a value, as it appears in exception messages. -/
def pyTypeName : Json → String
  | .null => "NoneType"
  | .bool _ => "bool"
  | .num _ => "int"
  | .str _ => "str"
  | .arr _ => "list"
  | .obj _ => "dict"

/-- Python truthiness of a JSON value (`if x:`). -/
def pyTruthy : Json → Bool
  | .null => false
  | .bool b => b
  | .num n => n != 0
  | .str s => s != ""
  | .arr [] => false
  | .arr (_ :: _) => true
  | .obj [] => false
  | .obj (_ :: _) => true

/-- Whether a value is a dict (`isinstance(x, dict)`). -/
def isDict : Json → Bool
  | .obj _ => true
  | _ => false

/-- The apostrophe character (U+0027). -/
def squote : Char := Char.ofNat 39

/-- Escape one character for Python's `repr` of a string quoted by `q`. -/
def pyEscChar (q : Char) (c : Char) : String :=
  if c = Char.ofNat 92 then "\\\\"
  else if c = q then "\\" ++ String.singleton q
  else if c = Char.ofNat 10 then "\\n"
  else if c = Char.ofNat 13 then "\\r"
  else if c = Char.ofNat 9 then "\\t"
  else String.singleton c

/-- Python's `repr` of a string: single-quoted unless the string contains a
single quote and no double quote. -/
def pyReprStr (s : String) : String :=
  let q := if s.contains squote && !s.contains '"' then '"' else squote
  String.singleton q ++ String.join (s.data.map (pyEscChar q)) ++ String.singleton q

mutual

/-- Python's `repr` of a JSON value. -/
def pyRepr : Json → String
  | .null => "None"
  | .bool true => "True"
  | .bool false => "False"
  | .num n => toString n
  | .str s => pyReprStr s
  | .arr xs => "[" ++ String.intercalate ", " (pyReprList xs) ++ "]"
  | .obj kvs => "\x7b" ++ String.intercalate ", " (pyReprPairs kvs) ++ "\x7d"

/-- `repr` of each element of a list. -/
def pyReprList : List Json → List String
  | [] => []
  | x :: xs => pyRepr x :: pyReprList xs

/-- `repr` of each `key: value` pair of a dict. -/
def pyReprPairs : List (String × Json) → List String
  | [] => []
  | (k, v) :: xs => (pyReprStr k ++ ": " ++ pyRepr v) :: pyReprPairs xs

end

/-- Python's `str()` of a JSON value, as an f-string renders it: a string
is itself, every other value is its `repr`. -/
def pyStr : Json → String
  | .str s => s
  | v => pyRepr v

/-- Python's `str.lower()` (the catalog uses ASCII server names). -/
def pyLower (s : String) : String := String.mk (s.data.map Char.toLower)

/-- Core of `str.title()`: a letter is uppercased when the previous
character was not a letter, lowercased otherwise. -/
def pyTitleAux : Bool → List Char → List Char
  | _, [] => []
  | prevCased, c :: cs =>
    if c.isAlpha then
      (if prevCased then c.toLower else c.toUpper) :: pyTitleAux true cs
    else
      c :: pyTitleAux false cs

/-- Python's `str.title()`. -/
def pyTitle (s : String) : String := String.mk (pyTitleAux false s.data)

/-- Python's `d.get(k, default)`: raises `AttributeError` when the receiver
is not a dict (the message is `str(e)` of the exception, as `main` prints
it). -/
def pyDictGet (v : Json) (k : String) (dflt : Json) : Except String Json :=
  match v with
  | .obj kvs => .ok ((kvs.lookup k).getD dflt)
  | _ => .error ("'" ++ pyTypeName v ++ "' object has no attribute 'get'")

/-- Python's `d.keys()` (as the script iterates it: the list of keys). -/
def pyKeys (v : Json) : Except String (List String) :=
  match v with
  | .obj kvs => .ok (kvs.map Prod.fst)
  | _ => .error ("'" ++ pyTypeName v ++ "' object has no attribute 'keys'")

/-- Python's `d.items()` (as the script iterates it: key/value pairs). -/
def pyItems (v : Json) : Except String (List (String × Json)) :=
  match v with
  | .obj kvs => .ok kvs
  | _ => .error ("'" ++ pyTypeName v ++ "' object has no attribute 'items'")

/-- Python's subscript `v[k]` with a string key. -/
def pySubscript (v : Json) (k : String) : Except String Json :=
  match v with
  | .obj kvs =>
    match kvs.lookup k with
    | some x => .ok x
    | none => .error ("'" ++ k ++ "'")
  | .arr _ => .error "list indices must be integers or slices, not str"
  | .str _ => .error "string indices must be integers"
  | _ => .error ("'" ++ pyTypeName v ++ "' object is not subscriptable")

/-- Substring test (used for Python's `in` on strings and to state that a
message does or does not mention a name). -/
def strContains (hay needle : String) : Bool :=
  decide (List.IsInfix needle.data hay.data)

/-- Python's `needle in container` for a string needle: substring test on a
string, membership (string equality; a string never equals a non-string)
on a list, key membership on a dict, `TypeError` otherwise. -/
def pyIn (needle : String) (container : Json) : Except String Bool :=
  match container with
  | .str s => .ok (strContains s needle)
  | .arr xs => .ok (xs.any (fun x => match x with | .str t => needle == t | _ => false))
  | .obj kvs => .ok (kvs.any (fun kv => kv.1 == needle))
  | _ => .error ("argument of type '" ++ pyTypeName container ++ "' is not iterable")

/-- Python iteration `for x in v`: characters of a string, elements of a
list, keys of a dict; `TypeError` otherwise. -/
def pyIter (v : Json) : Except String (List Json) :=
  match v with
  | .str s => .ok (s.data.map (fun c => .str (String.singleton c)))
  | .arr xs => .ok xs
  | .obj kvs => .ok (kvs.map (fun kv => .str kv.1))
  | _ => .error ("'" ++ pyTypeName v ++ "' object is not iterable")

/-- Python's `len(v)`. -/
def pyLen (v : Json) : Except String Nat :=
  match v with
  | .str s => .ok s.length
  | .arr xs => .ok xs.length
  | .obj kvs => .ok kvs.length
  | _ => .error ("object of type '" ++ pyTypeName v ++ "' has no len()")

/-- Helper for `str.join`: checks every item is a string, reporting the
first offender's index as Python does. -/
def pyJoinAux (i : Nat) : List Json → Except String (List String)
  | [] => .ok []
  | .str s :: xs => do
    let rest ← pyJoinAux (i + 1) xs
    .ok (s :: rest)
  | v :: _ =>
    .error ("sequence item " ++ toString i ++ ": expected str instance, "
      ++ pyTypeName v ++ " found")

/-- Python's `sep.join(items)`. -/
def pyJoin (sep : String) (items : List Json) : Except String String := do
  let parts ← pyJoinAux 0 items
  .ok (String.intercalate sep parts)

/-- A Python `for` loop whose body may raise, collecting one result per
element: stops at the first raised exception, preserving element order. -/
def exMapM {α β : Type} (f : α → Except String β) : List α → Except String (List β)
  | [] => .ok []
  | x :: xs => do
    let y ← f x
    let ys ← exMapM f xs
    .ok (y :: ys)

/-!  The generator functions of the script, transcribed over the Python
primitives.  Each Python function that appends to the shared `markdown`
list is embedded as a function returning the lines it appends; the
driver concatenates them in the source's order, so the markdown list is
identical.  A raised exception anywhere aborts the whole render, exactly
as in Python, where `main` catches it and discards all partial output. -/

/-- The nested TOC entry for one server name
(`f"  - [{server_name.title()}](#{server_name.lower()})"`, lines 39 and 46). -/
def tocEntry (server_name : String) : String :=
  "  - [" ++ pyTitle server_name ++ "](#" ++ pyLower server_name ++ ")"

/-- Lines 20-24 of `generate_tool_catalog_markdown`: the fixed header. -/
def headerLines : List String :=
  ["# MCP Tool Catalog", "",
   "This document provides a comprehensive overview of all available MCP tools,",
   "both local and remote, for task-specific configuration generation.", ""]

/-- Lines 27-29: the last-updated line, defaulting to "Unknown". -/
def lastUpdatedLines (catalog_data : Json) : Except String (List String) := do
  let last_updated ← pyDictGet catalog_data "last_updated" (.str "Unknown")
  .ok ["**Last Updated**: " ++ pyStr last_updated, ""]

/-- Lines 32-49: the table of contents. -/
def tocLines (catalog_data : Json) : Except String (List String) := do
  let localEntries ← (do
    if ← pyIn "local" catalog_data then
      let ks ← pyKeys (← pySubscript catalog_data "local")
      Except.ok (ks.map tocEntry)
    else Except.ok [])
  let remoteEntries ← (do
    if ← pyIn "remote" catalog_data then
      let ks ← pyKeys (← pySubscript catalog_data "remote")
      Except.ok (ks.map tocEntry)
    else Except.ok [])
  .ok (["## Table of Contents", "", "- [Local Servers](#local-servers)"]
    ++ localEntries
    ++ ["- [Remote Tools](#remote-tools)"]
    ++ remoteEntries
    ++ ["- [Client Configuration Guide](#client-configuration-guide)", ""])

/-- `generate_tool_documentation` (lines 144-177). -/
def generate_tool_documentation (tool : Json) (indent : String) :
    Except String (List String) := do
  let tool_name ← pyDictGet tool "name" (.str "unknown")
  let description ← pyDictGet tool "description" (.str "No description available")
  let category ← pyDictGet tool "category" (.str "general")
  let use_cases ← pyDictGet tool "use_cases" (.arr [])
  let head := [indent ++ "#### `" ++ pyStr tool_name ++ "`",
               indent,
               indent ++ "**Description**: " ++ pyStr description,
               indent,
               indent ++ "**Category**: " ++ pyStr category]
  let ucLines ← (do
    if pyTruthy use_cases then
      let items ← pyIter use_cases
      let use_cases_str ← pyJoin ", " items
      Except.ok [indent ++ "**Use Cases**: " ++ use_cases_str]
    else Except.ok [])
  let input_schema ← pyDictGet tool "input_schema" .null
  let paramLines ← (do
    if pyTruthy input_schema && isDict input_schema then
      let properties ← pyDictGet input_schema "properties" (.obj [])
      let required ← pyDictGet input_schema "required" (.arr [])
      if pyTruthy properties then
        let props ← pyItems properties
        let bullets ← exMapM (fun kv => do
          let param_type ← pyDictGet kv.2 "type" (.str "unknown")
          let param_desc ← pyDictGet kv.2 "description" (.str "No description")
          let isReq ← pyIn kv.1 required
          let required_marker := if isReq then " *(required)*" else ""
          Except.ok (indent ++ "- `" ++ kv.1 ++ "` (" ++ pyStr param_type ++ ")"
            ++ required_marker ++ ": " ++ pyStr param_desc)) props
        Except.ok ([indent, indent ++ "**Parameters**:"] ++ bullets)
      else Except.ok []
    else Except.ok [])
  .ok (head ++ ucLines ++ paramLines ++ [indent])

/-- `generate_local_server_section` (lines 79-115). -/
def generate_local_server_section (server_name : String) (server_info : Json) :
    Except String (List String) := do
  let head := ["### " ++ pyTitle server_name, ""]
  let description ← pyDictGet server_info "description" (.str "No description available")
  let descLines := ["**Description**: " ++ pyStr description, ""]
  let configLines ← (do
    if ← pyIn "command" server_info then
      let cmd ← pyDictGet server_info "command" (.str "")
      let args ← pyDictGet server_info "args" (.arr [])
      let argLines ← (do
        if pyTruthy args then
          let items ← pyIter args
          let args_str := String.intercalate ", "
            (items.map (fun a => "\"" ++ pyStr a ++ "\""))
          Except.ok ["  \"args\": [" ++ args_str ++ "]"]
        else Except.ok [])
      let working_dir ← pyDictGet server_info "working_directory" (.str "project_root")
      Except.ok (["**Server Configuration**:", "```json", "\x7b",
                  "  \"command\": \"" ++ pyStr cmd ++ "\""]
        ++ argLines
        ++ ["  \"workingDirectory\": \"" ++ pyStr working_dir ++ "\"",
            "\x7d", "```", ""])
    else Except.ok [])
  let tools ← pyDictGet server_info "tools" (.arr [])
  let toolLines ← (do
    if pyTruthy tools then
      let n ← pyLen tools
      let items ← pyIter tools
      let docs ← exMapM (fun tool => generate_tool_documentation tool "") items
      Except.ok (["**Available Tools** (" ++ toString n ++ " tools):", ""]
        ++ docs.flatten)
    else Except.ok [])
  .ok (head ++ descLines ++ configLines ++ toolLines)

/-- `generate_remote_server_section` (lines 118-141). -/
def generate_remote_server_section (server_name : String) (server_info : Json) :
    Except String (List String) := do
  let head := ["### " ++ pyTitle server_name, ""]
  let description ← pyDictGet server_info "description" (.str "No description available")
  let descLines := ["**Description**: " ++ pyStr description, ""]
  let endpointLines ← (do
    if ← pyIn "endpoint" server_info then
      let ep ← pySubscript server_info "endpoint"
      Except.ok ["**Endpoint**: `" ++ pyStr ep ++ "`", ""]
    else Except.ok [])
  let tools ← pyDictGet server_info "tools" (.arr [])
  let toolLines ← (do
    if pyTruthy tools then
      let n ← pyLen tools
      let items ← pyIter tools
      let docs ← exMapM (fun tool => generate_tool_documentation tool "") items
      Except.ok (["**Available Tools** (" ++ toString n ++ " tools):", ""]
        ++ docs.flatten)
    else Except.ok [])
  .ok (head ++ descLines ++ endpointLines ++ toolLines)

/-- Lines 52-60: the Local Servers section. -/
def localServersSection (catalog_data : Json) : Except String (List String) := do
  let pre := ["## Local Servers", "",
              "Local servers run as separate processes and communicate via stdio transport.",
              "They require complete command configuration in the client config.", ""]
  if ← pyIn "local" catalog_data then
    let items ← pyItems (← pySubscript catalog_data "local")
    let secs ← exMapM (fun kv => generate_local_server_section kv.1 kv.2) items
    .ok (pre ++ secs.flatten)
  else
    .ok pre

/-- Lines 63-71: the Remote Tools section. -/
def remoteToolsSection (catalog_data : Json) : Except String (List String) := do
  let pre := ["## Remote Tools", "",
              "Remote tools are accessible through the Toolman proxy server.",
              "Only tool names are needed in the client config.", ""]
  if ← pyIn "remote" catalog_data then
    let items ← pyItems (← pySubscript catalog_data "remote")
    let secs ← exMapM (fun kv => generate_remote_server_section kv.1 kv.2) items
    .ok (pre ++ secs.flatten)
  else
    .ok pre

/-- `generate_configuration_guide` (lines 180-222): constant text. -/
def generate_configuration_guide : List String :=
  ["## Client Configuration Guide", "",
   "When generating task-specific client configurations, use this structure:", "",
   "### Expected client-config.json Structure", "",
   "```json",
   "\x7b",
   "  \"remoteTools\": [",
   "    \"kubernetes_listResources\",",
   "    \"memory_create_entities\"",
   "  ],",
   "  \"localServers\": \x7b",
   "    \"filesystem\": \x7b",
   "      \"command\": \"npx\",",
   "      \"args\": [\"-y\", \"@modelcontextprotocol/server-filesystem\", \"/workspace\"],",
   "      \"tools\": [\"read_file\", \"write_file\", \"list_directory\"],",
   "      \"workingDirectory\": \"project_root\"",
   "    \x7d",
   "  \x7d",
   "\x7d",
   "```", "",
   "### Key Points", "",
   "- **Remote Tools**: Array of specific tool names (not server names)",
   "- **Local Servers**: Object with complete server configurations",
   "- **Tools Selection**: Only include tools actually needed for the specific task",
   "- **Working Directory**: Use `project_root` as the standard working directory", "",
   "### Tool Selection Guidelines", "",
   "1. **Read Task Requirements**: Understand what the task needs to accomplish",
   "2. **Match Tools to Actions**: Select tools that directly support the required actions",
   "3. **Minimize Tool Set**: Only include tools that are actually needed",
   "4. **Consider Dependencies**: Include tools needed for prerequisite actions", ""]

/-- `generate_tool_catalog_markdown` (lines 14-76): the whole document,
joined with newlines. -/
def generate_tool_catalog_markdown (catalog_data : Json) : Except String String := do
  let lu ← lastUpdatedLines catalog_data
  let toc ← tocLines catalog_data
  let localSec ← localServersSection catalog_data
  let remoteSec ← remoteToolsSection catalog_data
  .ok (String.intercalate "\n"
    (headerLines ++ lu ++ toc ++ localSec ++ remoteSec ++ generate_configuration_guide))

/-- `main` (lines 225-249).  The file system is a partial map from path to
content (`none` = `FileNotFoundError`), and `json.load` is the abstract
decoder `jsonLoad` (the script delegates parsing to the standard library);
the result is the list of strings printed, with the process exit status. -/
def main (argv : List String) (readFile : String → Option String)
    (jsonLoad : String → Except String Json) : List String × Nat :=
  match argv with
  | [_, catalog_file] =>
    (match readFile catalog_file with
     | none => (["Error: File '" ++ catalog_file ++ "' not found"], 1)
     | some content =>
       match jsonLoad content with
       | .error e => (["Error: Invalid JSON in '" ++ catalog_file ++ "': " ++ e], 1)
       | .ok catalog_data =>
         match generate_tool_catalog_markdown catalog_data with
         | .error e => (["Error: " ++ e], 1)
         | .ok markdown => ([markdown], 0))
  | _ => (["Usage: python3 generate-tool-catalog-markdown.py <tool-catalog.json>"], 1)

/-!  Conformance predicates: the shape of a catalog per the data model of
spec section 3 (all fields optional, present fields of the stated type).
They are used as hypotheses; the renderer itself never consults them. -/

/-- The value is a JSON string. -/
def isStrJ : Json → Bool
  | .str _ => true
  | _ => false

/-- An optional field that, when present, is a string. -/
def isStrOpt : Option Json → Bool
  | none => true
  | some (.str _) => true
  | some _ => false

/-- A parameter entry: an object whose optional `type` and `description`
are strings. -/
def conformsParam : Json → Bool
  | .obj pkvs => isStrOpt (pkvs.lookup "type") && isStrOpt (pkvs.lookup "description")
  | _ => false

/-- A parameter schema: optional `properties` mapping names to parameter
entries, optional `required` list of strings. -/
def conformsSchema (skvs : List (String × Json)) : Bool :=
  (match skvs.lookup "properties" with
   | none => true
   | some (.obj ps) => ps.all (fun kv => conformsParam kv.2)
   | some _ => false) &&
  (match skvs.lookup "required" with
   | none => true
   | some (.arr rs) => rs.all isStrJ
   | some _ => false)

/-- A ToolEntry per spec section 3: optional string `name`, `description`,
`category`; optional string list `use_cases`; optional parameter schema. -/
def conformsTool : Json → Bool
  | .obj kvs =>
    isStrOpt (kvs.lookup "name") && isStrOpt (kvs.lookup "description") &&
    isStrOpt (kvs.lookup "category") &&
    (match kvs.lookup "use_cases" with
     | none => true
     | some (.arr xs) => xs.all isStrJ
     | some _ => false) &&
    (match kvs.lookup "input_schema" with
     | none => true
     | some .null => true
     | some (.obj skvs) => conformsSchema skvs
     | some _ => false)
  | _ => false

/-- A ServerEntry per spec section 3: optional string `description`,
`command`, `working_directory`, `endpoint`; optional string list `args`;
optional list of conforming tools. -/
def conformsServerEntry : Json → Bool
  | .obj kvs =>
    isStrOpt (kvs.lookup "description") && isStrOpt (kvs.lookup "command") &&
    (match kvs.lookup "args" with
     | none => true
     | some (.arr xs) => xs.all isStrJ
     | some _ => false) &&
    isStrOpt (kvs.lookup "working_directory") && isStrOpt (kvs.lookup "endpoint") &&
    (match kvs.lookup "tools" with
     | none => true
     | some (.arr ts) => ts.all conformsTool
     | some _ => false)
  | _ => false

/-- A ToolCatalog per spec section 3: optional string `last_updated`,
optional `local` and `remote` mappings of conforming server entries. -/
def conformsCatalog : Json → Bool
  | .obj kvs =>
    isStrOpt (kvs.lookup "last_updated") &&
    (match kvs.lookup "local" with
     | none => true
     | some (.obj svs) => svs.all (fun kv => conformsServerEntry kv.2)
     | some _ => false) &&
    (match kvs.lookup "remote" with
     | none => true
     | some (.obj svs) => svs.all (fun kv => conformsServerEntry kv.2)
     | some _ => false)
  | _ => false

/-!  Helper lemmas about the Python primitives. -/

theorem isStrJ_iff (v : Json) : isStrJ v = true ↔ ∃ s, v = .str s := by
  cases v <;> simp [isStrJ]

theorem bindOk {α β : Type} (a : α) (f : α → Except String β) :
    (Except.ok a : Except String α) >>= f = f a := rfl

theorem bindErr {α β : Type} (e : String) (f : α → Except String β) :
    (Except.error e : Except String α) >>= f = Except.error e := rfl

theorem exMapM_ok_of_forall {α β : Type} (f : α → Except String β) :
    ∀ (l : List α), (∀ x ∈ l, ∃ y, f x = .ok y) → ∃ ys, exMapM f l = .ok ys := by
  intro l h
  induction l with
  | nil => exact ⟨[], rfl⟩
  | cons a as ih =>
    obtain ⟨y, hy⟩ := h a (List.mem_cons_self a as)
    obtain ⟨ys, hys⟩ := ih (fun x hx => h x (List.mem_cons_of_mem a hx))
    exact ⟨y :: ys, by simp [exMapM, hy, hys, bindOk]⟩

theorem exMapM_mem {α β : Type} (f : α → Except String β) :
    ∀ (l : List α) (ys : List β), exMapM f l = .ok ys →
      ∀ x ∈ l, ∃ y, f x = .ok y ∧ y ∈ ys := by
  intro l
  induction l with
  | nil => intro ys _ x hx; exact absurd hx (List.not_mem_nil x)
  | cons a as ih =>
    intro ys hok x hx
    rw [show exMapM f (a :: as) = Except.bind (f a) (fun y =>
          Except.bind (exMapM f as) (fun ys => Except.ok (y :: ys))) from rfl] at hok
    cases hfa : f a with
    | error e => rw [hfa] at hok; exact absurd hok (by simp [Except.bind])
    | ok y =>
      rw [hfa] at hok
      cases hrest : exMapM f as with
      | error e => rw [hrest] at hok; exact absurd hok (by simp [Except.bind])
      | ok tl =>
        rw [hrest] at hok
        simp only [Except.bind, Except.ok.injEq] at hok
        rcases List.mem_cons.mp hx with hxa | hxas
        · exact ⟨y, by rw [hxa]; exact hfa, by rw [← hok]; exact List.mem_cons_self y tl⟩
        · obtain ⟨y', hy', hmem⟩ := ih tl hrest x hxas
          exact ⟨y', hy', by rw [← hok]; exact List.mem_cons_of_mem y hmem⟩

theorem pyJoinAux_ok (l : List Json) (h : l.all isStrJ = true) :
    ∀ i, ∃ out, pyJoinAux i l = .ok out := by
  induction l with
  | nil => intro i; exact ⟨[], rfl⟩
  | cons a as ih =>
    intro i
    simp only [List.all_cons, Bool.and_eq_true] at h
    obtain ⟨s, rfl⟩ := (isStrJ_iff a).mp h.1
    obtain ⟨out, hout⟩ := ih h.2 (i + 1)
    exact ⟨s :: out, by simp [pyJoinAux, hout, bindOk]⟩

theorem pyJoin_ok (sep : String) (l : List Json) (h : l.all isStrJ = true) :
    ∃ s, pyJoin sep l = .ok s := by
  obtain ⟨out, hout⟩ := pyJoinAux_ok l h 0
  exact ⟨String.intercalate sep out, by simp [pyJoin, hout, bindOk]⟩

theorem bind_ok_inv {α β : Type} {e : Except String α} {f : α → Except String β} {b : β}
    (h : e >>= f = .ok b) : ∃ a, e = .ok a ∧ f a = .ok b := by
  cases e with
  | error err => exact absurd h (by simp [bindErr])
  | ok a => exact ⟨a, rfl, by simpa [bindOk] using h⟩

theorem lookup_some_any (kvs : List (String × Json)) (k : String) (v : Json)
    (h : kvs.lookup k = some v) : kvs.any (fun kv => kv.1 == k) = true := by
  induction kvs with
  | nil => simp [List.lookup] at h
  | cons a as ih =>
    obtain ⟨k1, v1⟩ := a
    by_cases hk : k = k1
    · subst hk
      simp [List.any_cons]
    · simp only [List.lookup_cons, beq_false_of_ne hk] at h
      simp only [List.any_cons, Bool.or_eq_true]
      exact Or.inr (ih h)

theorem lookup_isSome_of_any (kvs : List (String × Json)) (k : String)
    (h : kvs.any (fun kv => kv.1 == k) = true) : ∃ v, kvs.lookup k = some v := by
  induction kvs with
  | nil => simp [List.any_nil] at h
  | cons a as ih =>
    obtain ⟨k1, v1⟩ := a
    by_cases hk : k = k1
    · subst hk
      exact ⟨v1, by simp [List.lookup_cons]⟩
    · simp only [List.any_cons, Bool.or_eq_true, beq_iff_eq] at h
      rcases h with h | h
      · exact absurd h.symm hk
      · obtain ⟨v, hv⟩ := ih h
        exact ⟨v, by simp only [List.lookup_cons, beq_false_of_ne hk]; exact hv⟩

/-!  Totality of the tool renderer over conforming tools. -/

theorem ucPart_ok (ind : String) (u : Json)
    (hu : u = Json.arr [] ∨ ∃ xs, u = Json.arr xs ∧ xs.all isStrJ = true) :
    ∃ uc, (do
      if pyTruthy u then
        let items ← pyIter u
        let use_cases_str ← pyJoin ", " items
        Except.ok [ind ++ "**Use Cases**: " ++ use_cases_str]
      else Except.ok [] : Except String (List String)) = Except.ok uc := by
  rcases hu with rfl | ⟨xs, rfl, hall⟩
  · exact ⟨[], by simp [pyTruthy]⟩
  · cases xs with
    | nil => exact ⟨[], by simp [pyTruthy]⟩
    | cons a as =>
      obtain ⟨s, hs⟩ := pyJoin_ok ", " (a :: as) hall
      exact ⟨[ind ++ "**Use Cases**: " ++ s], by
        simp [pyTruthy, pyIter, hs, bindOk]⟩

theorem paramPart_ok (ind : String) (i : Json)
    (hi : i = Json.null ∨ ∃ skvs, i = Json.obj skvs ∧ conformsSchema skvs = true) :
    ∃ pl, (do
      if pyTruthy i && isDict i then
        let properties ← pyDictGet i "properties" (.obj [])
        let required ← pyDictGet i "required" (.arr [])
        if pyTruthy properties then
          let props ← pyItems properties
          let bullets ← exMapM (fun kv => do
            let param_type ← pyDictGet kv.2 "type" (.str "unknown")
            let param_desc ← pyDictGet kv.2 "description" (.str "No description")
            let isReq ← pyIn kv.1 required
            let required_marker := if isReq then " *(required)*" else ""
            Except.ok (ind ++ "- `" ++ kv.1 ++ "` (" ++ pyStr param_type ++ ")"
              ++ required_marker ++ ": " ++ pyStr param_desc)) props
          Except.ok ([ind, ind ++ "**Parameters**:"] ++ bullets)
        else Except.ok []
      else Except.ok [] : Except String (List String)) = Except.ok pl := by
  rcases hi with rfl | ⟨skvs, rfl, hconf⟩
  · exact ⟨[], by simp [pyTruthy]⟩
  · cases skvs with
    | nil => exact ⟨[], by simp [pyTruthy, isDict]⟩
    | cons s1 srest =>
      simp only [conformsSchema, Bool.and_eq_true] at hconf
      obtain ⟨hp, hr⟩ := hconf
      have hreq : ∃ R, ((s1 :: srest).lookup "required").getD (Json.arr []) = Json.arr R := by
        cases hrl : (s1 :: srest).lookup "required" with
        | none => exact ⟨[], rfl⟩
        | some rv =>
          rw [hrl] at hr
          cases rv with
          | arr rs => exact ⟨rs, rfl⟩
          | null => simp at hr
          | bool b => simp at hr
          | num n => simp at hr
          | str s => simp at hr
          | obj o => simp at hr
      obtain ⟨R, hR⟩ := hreq
      cases hpl : (s1 :: srest).lookup "properties" with
      | none =>
        exact ⟨[], by simp [pyTruthy, isDict, pyDictGet, hpl, bindOk]⟩
      | some pv =>
        rw [hpl] at hp
        cases pv with
        | null => simp at hp
        | bool b => simp at hp
        | num n => simp at hp
        | str s => simp at hp
        | arr a => simp at hp
        | obj ps =>
          cases ps with
          | nil =>
            exact ⟨[], by simp [pyTruthy, isDict, pyDictGet, hpl, bindOk]⟩
          | cons p1 prest =>
            have hbul : ∃ ys, exMapM (fun kv => do
                let param_type ← pyDictGet kv.2 "type" (Json.str "unknown")
                let param_desc ← pyDictGet kv.2 "description" (Json.str "No description")
                let isReq ← pyIn kv.1 (Json.arr R)
                let required_marker := if isReq then " *(required)*" else ""
                Except.ok (ind ++ "- `" ++ kv.1 ++ "` (" ++ pyStr param_type ++ ")"
                  ++ required_marker ++ ": " ++ pyStr param_desc)) (p1 :: prest) = Except.ok ys := by
              apply exMapM_ok_of_forall
              intro kv hkv
              simp only []
              have hc : conformsParam kv.2 = true := by
                have := List.all_eq_true.mp hp kv hkv
                simpa using this
              cases hkv2 : kv.2 with
              | obj pkvs =>
                simp only [pyDictGet, pyIn, bindOk]
                exact ⟨_, rfl⟩
              | null => rw [hkv2] at hc; simp [conformsParam] at hc
              | bool b => rw [hkv2] at hc; simp [conformsParam] at hc
              | num n => rw [hkv2] at hc; simp [conformsParam] at hc
              | str s => rw [hkv2] at hc; simp [conformsParam] at hc
              | arr a => rw [hkv2] at hc; simp [conformsParam] at hc
            obtain ⟨ys, hys⟩ := hbul
            have hprop : pyDictGet (Json.obj (s1 :: srest)) "properties" (Json.obj []) =
                Except.ok (Json.obj (p1 :: prest)) := by simp [pyDictGet, hpl]
            have hreqget : pyDictGet (Json.obj (s1 :: srest)) "required" (Json.arr []) =
                Except.ok (Json.arr R) := by simp [pyDictGet, hR]
            refine ⟨[ind, ind ++ "**Parameters**:"] ++ ys, ?_⟩
            rw [show (pyTruthy (Json.obj (s1 :: srest)) && isDict (Json.obj (s1 :: srest)))
                  = true from rfl, if_pos rfl, hprop]
            simp only [bindOk]
            rw [hreqget]
            simp only [bindOk]
            rw [show pyTruthy (Json.obj (p1 :: prest)) = true from rfl, if_pos rfl,
              show pyItems (Json.obj (p1 :: prest)) = Except.ok (p1 :: prest) from rfl]
            simp only [bindOk]
            rw [hys]
            simp only [bindOk]

theorem gtd_total (t : Json) (ind : String) (h : conformsTool t = true) :
    ∃ ls, generate_tool_documentation t ind = .ok ls := by
  cases t with
  | null => simp [conformsTool] at h
  | bool b => simp [conformsTool] at h
  | num n => simp [conformsTool] at h
  | str s => simp [conformsTool] at h
  | arr a => simp [conformsTool] at h
  | obj kvs =>
    simp only [conformsTool, Bool.and_eq_true] at h
    obtain ⟨⟨⟨⟨-, -⟩, -⟩, huc⟩, his⟩ := h
    have hu : (kvs.lookup "use_cases").getD (Json.arr []) = Json.arr [] ∨
        ∃ xs, (kvs.lookup "use_cases").getD (Json.arr []) = Json.arr xs ∧
          xs.all isStrJ = true := by
      cases hl : kvs.lookup "use_cases" with
      | none => exact Or.inl rfl
      | some v =>
        rw [hl] at huc
        cases v with
        | arr xs => exact Or.inr ⟨xs, rfl, by simpa using huc⟩
        | null => simp at huc
        | bool b => simp at huc
        | num n => simp at huc
        | str s => simp at huc
        | obj o => simp at huc
    have hi : (kvs.lookup "input_schema").getD Json.null = Json.null ∨
        ∃ skvs, (kvs.lookup "input_schema").getD Json.null = Json.obj skvs ∧
          conformsSchema skvs = true := by
      cases hl : kvs.lookup "input_schema" with
      | none => exact Or.inl rfl
      | some v =>
        rw [hl] at his
        cases v with
        | null => exact Or.inl rfl
        | obj skvs => exact Or.inr ⟨skvs, rfl, by simpa using his⟩
        | bool b => simp at his
        | num n => simp at his
        | str s => simp at his
        | arr a => simp at his
    obtain ⟨uc, hucEq⟩ := ucPart_ok ind _ hu
    obtain ⟨pl, hplEq⟩ := paramPart_ok ind _ hi
    have hget : ∀ (k : String) (d : Json),
        pyDictGet (Json.obj kvs) k d = Except.ok ((kvs.lookup k).getD d) := fun k d => rfl
    simp only [generate_tool_documentation, hget, bindOk]
    rw [hucEq]
    simp only [bindOk]
    rw [hplEq]
    simp only [bindOk]
    exact ⟨_, rfl⟩

/-- Whenever the tool renderer succeeds, its output starts with the five
header lines (name, blank, description, blank, category), whatever the
use-case and parameter blocks contribute. -/
theorem gtd_ok_head (kvs : List (String × Json)) (ind : String) (ls : List String)
    (hok : generate_tool_documentation (.obj kvs) ind = .ok ls) :
    ∃ rest, ls =
      [ind ++ "#### `" ++ pyStr ((kvs.lookup "name").getD (.str "unknown")) ++ "`",
       ind,
       ind ++ "**Description**: " ++ pyStr ((kvs.lookup "description").getD (.str "No description available")),
       ind,
       ind ++ "**Category**: " ++ pyStr ((kvs.lookup "category").getD (.str "general"))] ++ rest := by
  have hget : ∀ (k : String) (d : Json),
      pyDictGet (Json.obj kvs) k d = Except.ok ((kvs.lookup k).getD d) := fun k d => rfl
  simp only [generate_tool_documentation, hget, bindOk] at hok
  obtain ⟨uc, -, hok2⟩ := bind_ok_inv hok
  obtain ⟨pl, -, hok3⟩ := bind_ok_inv hok2
  injection hok3 with h3
  exact ⟨uc ++ (pl ++ [ind]), by rw [← h3]; simp [List.append_assoc]⟩

/-!  Totality of the server-section renderers over conforming entries. -/

theorem cfgPart_ok (kvs : List (String × Json))
    (hargs : (match kvs.lookup "args" with
      | none => true
      | some (Json.arr xs) => xs.all isStrJ
      | some _ => false) = true) :
    ∃ cfg, (do
      if ← pyIn "command" (Json.obj kvs) then
        let cmd ← pyDictGet (Json.obj kvs) "command" (.str "")
        let args ← pyDictGet (Json.obj kvs) "args" (.arr [])
        let argLines ← (do
          if pyTruthy args then
            let items ← pyIter args
            let args_str := String.intercalate ", "
              (items.map (fun a => "\"" ++ pyStr a ++ "\""))
            Except.ok ["  \"args\": [" ++ args_str ++ "]"]
          else Except.ok [])
        let working_dir ← pyDictGet (Json.obj kvs) "working_directory" (.str "project_root")
        Except.ok (["**Server Configuration**:", "```json", "\x7b",
                    "  \"command\": \"" ++ pyStr cmd ++ "\""]
          ++ argLines
          ++ ["  \"workingDirectory\": \"" ++ pyStr working_dir ++ "\"",
              "\x7d", "```", ""])
      else Except.ok [] : Except String (List String)) = Except.ok cfg := by
  rw [show pyIn "command" (Json.obj kvs)
        = Except.ok (kvs.any fun kv => kv.1 == "command") from rfl]
  simp only [bindOk]
  cases hb : kvs.any (fun kv => kv.1 == "command") with
  | false => exact ⟨[], by simp⟩
  | true =>
    cases hal : kvs.lookup "args" with
    | none =>
      simp [pyDictGet, hal, pyTruthy, bindOk]
    | some av =>
      rw [hal] at hargs
      cases av with
      | arr xs =>
        cases xs with
        | nil => simp [pyDictGet, hal, pyTruthy, bindOk]
        | cons a as => simp [pyDictGet, hal, pyTruthy, pyIter, bindOk]
      | null => simp at hargs
      | bool b => simp at hargs
      | num n => simp at hargs
      | str s => simp at hargs
      | obj o => simp at hargs

theorem toolsPart_ok (t : Json)
    (ht : t = Json.arr [] ∨ ∃ ts, t = Json.arr ts ∧ ts.all conformsTool = true) :
    ∃ tl, (do
      if pyTruthy t then
        let n ← pyLen t
        let items ← pyIter t
        let docs ← exMapM (fun tool => generate_tool_documentation tool "") items
        Except.ok (["**Available Tools** (" ++ toString n ++ " tools):", ""]
          ++ docs.flatten)
      else Except.ok [] : Except String (List String)) = Except.ok tl := by
  rcases ht with rfl | ⟨ts, rfl, hall⟩
  · exact ⟨[], by simp [pyTruthy]⟩
  · cases ts with
    | nil => exact ⟨[], by simp [pyTruthy]⟩
    | cons a as =>
      have hdocs : ∃ ys, exMapM (fun tool => generate_tool_documentation tool "")
          (a :: as) = Except.ok ys := by
        apply exMapM_ok_of_forall
        intro x hx
        exact gtd_total x "" (by simpa using List.all_eq_true.mp hall x hx)
      obtain ⟨ys, hys⟩ := hdocs
      rw [show pyTruthy (Json.arr (a :: as)) = true from rfl, if_pos rfl,
        show pyLen (Json.arr (a :: as)) = Except.ok (a :: as).length from rfl]
      simp only [bindOk]
      rw [show pyIter (Json.arr (a :: as)) = Except.ok (a :: as) from rfl]
      simp only [bindOk]
      rw [hys]
      simp only [bindOk]
      exact ⟨_, rfl⟩

theorem gls_total (n : String) (e : Json) (h : conformsServerEntry e = true) :
    ∃ ls, generate_local_server_section n e = .ok ls := by
  cases e with
  | null => simp [conformsServerEntry] at h
  | bool b => simp [conformsServerEntry] at h
  | num m => simp [conformsServerEntry] at h
  | str s => simp [conformsServerEntry] at h
  | arr a => simp [conformsServerEntry] at h
  | obj kvs =>
    simp only [conformsServerEntry, Bool.and_eq_true] at h
    obtain ⟨⟨⟨⟨⟨-, -⟩, hargs⟩, -⟩, -⟩, htools⟩ := h
    obtain ⟨cfg, hcfgEq⟩ := cfgPart_ok kvs hargs
    have ht : (kvs.lookup "tools").getD (Json.arr []) = Json.arr [] ∨
        ∃ ts, (kvs.lookup "tools").getD (Json.arr []) = Json.arr ts ∧
          ts.all conformsTool = true := by
      cases hl : kvs.lookup "tools" with
      | none => exact Or.inl rfl
      | some v =>
        rw [hl] at htools
        cases v with
        | arr ts => exact Or.inr ⟨ts, rfl, by simpa using htools⟩
        | null => simp at htools
        | bool b => simp at htools
        | num m => simp at htools
        | str s => simp at htools
        | obj o => simp at htools
    obtain ⟨tl, htlEq⟩ := toolsPart_ok _ ht
    have hget : ∀ (k : String) (d : Json),
        pyDictGet (Json.obj kvs) k d = Except.ok ((kvs.lookup k).getD d) := fun k d => rfl
    simp only [hget, bindOk] at hcfgEq
    simp only [generate_local_server_section, hget, bindOk]
    rw [hcfgEq]
    simp only [bindOk]
    rw [htlEq]
    simp only [bindOk]
    exact ⟨_, rfl⟩

theorem grs_total (n : String) (e : Json) (h : conformsServerEntry e = true) :
    ∃ ls, generate_remote_server_section n e = .ok ls := by
  cases e with
  | null => simp [conformsServerEntry] at h
  | bool b => simp [conformsServerEntry] at h
  | num m => simp [conformsServerEntry] at h
  | str s => simp [conformsServerEntry] at h
  | arr a => simp [conformsServerEntry] at h
  | obj kvs =>
    simp only [conformsServerEntry, Bool.and_eq_true] at h
    obtain ⟨⟨⟨⟨⟨-, -⟩, -⟩, -⟩, -⟩, htools⟩ := h
    have hepEq : ∃ epl, (do
        if ← pyIn "endpoint" (Json.obj kvs) then
          let ep ← pySubscript (Json.obj kvs) "endpoint"
          Except.ok ["**Endpoint**: `" ++ pyStr ep ++ "`", ""]
        else Except.ok [] : Except String (List String)) = Except.ok epl := by
      rw [show pyIn "endpoint" (Json.obj kvs)
            = Except.ok (kvs.any fun kv => kv.1 == "endpoint") from rfl]
      simp only [bindOk]
      cases hb : kvs.any (fun kv => kv.1 == "endpoint") with
      | false => exact ⟨[], by simp⟩
      | true =>
        obtain ⟨v, hv⟩ := lookup_isSome_of_any kvs "endpoint" hb
        simp only [pySubscript, hv, bindOk, if_true]
        exact ⟨_, rfl⟩
    obtain ⟨epl, hepEq⟩ := hepEq
    have ht : (kvs.lookup "tools").getD (Json.arr []) = Json.arr [] ∨
        ∃ ts, (kvs.lookup "tools").getD (Json.arr []) = Json.arr ts ∧
          ts.all conformsTool = true := by
      cases hl : kvs.lookup "tools" with
      | none => exact Or.inl rfl
      | some v =>
        rw [hl] at htools
        cases v with
        | arr ts => exact Or.inr ⟨ts, rfl, by simpa using htools⟩
        | null => simp at htools
        | bool b => simp at htools
        | num m => simp at htools
        | str s => simp at htools
        | obj o => simp at htools
    obtain ⟨tl, htlEq⟩ := toolsPart_ok _ ht
    have hget : ∀ (k : String) (d : Json),
        pyDictGet (Json.obj kvs) k d = Except.ok ((kvs.lookup k).getD d) := fun k d => rfl
    simp only [generate_remote_server_section, hget, bindOk]
    rw [hepEq]
    simp only [bindOk]
    rw [htlEq]
    simp only [bindOk]
    exact ⟨_, rfl⟩

/-!  Totality of the document-level segments and of the whole renderer. -/

theorem tocLines_total (kvs : List (String × Json))
    (hloc : (match kvs.lookup "local" with
      | none => true
      | some (Json.obj svs) => svs.all (fun kv => conformsServerEntry kv.2)
      | some _ => false) = true)
    (hrem : (match kvs.lookup "remote" with
      | none => true
      | some (Json.obj svs) => svs.all (fun kv => conformsServerEntry kv.2)
      | some _ => false) = true) :
    ∃ t, tocLines (Json.obj kvs) = .ok t := by
  have hle : ∃ le, (do
      if ← pyIn "local" (Json.obj kvs) then
        let ks ← pyKeys (← pySubscript (Json.obj kvs) "local")
        Except.ok (ks.map tocEntry)
      else Except.ok [] : Except String (List String)) = Except.ok le := by
    rw [show pyIn "local" (Json.obj kvs)
          = Except.ok (kvs.any fun kv => kv.1 == "local") from rfl]
    simp only [bindOk]
    cases hb : kvs.any (fun kv => kv.1 == "local") with
    | false => simp
    | true =>
      obtain ⟨v, hv⟩ := lookup_isSome_of_any kvs "local" hb
      rw [hv] at hloc
      cases v with
      | obj svs => simp [pySubscript, hv, pyKeys, bindOk]
      | null => simp at hloc
      | bool b => simp at hloc
      | num m => simp at hloc
      | str s => simp at hloc
      | arr a => simp at hloc
  have hre : ∃ re, (do
      if ← pyIn "remote" (Json.obj kvs) then
        let ks ← pyKeys (← pySubscript (Json.obj kvs) "remote")
        Except.ok (ks.map tocEntry)
      else Except.ok [] : Except String (List String)) = Except.ok re := by
    rw [show pyIn "remote" (Json.obj kvs)
          = Except.ok (kvs.any fun kv => kv.1 == "remote") from rfl]
    simp only [bindOk]
    cases hb : kvs.any (fun kv => kv.1 == "remote") with
    | false => simp
    | true =>
      obtain ⟨v, hv⟩ := lookup_isSome_of_any kvs "remote" hb
      rw [hv] at hrem
      cases v with
      | obj svs => simp [pySubscript, hv, pyKeys, bindOk]
      | null => simp at hrem
      | bool b => simp at hrem
      | num m => simp at hrem
      | str s => simp at hrem
      | arr a => simp at hrem
  obtain ⟨le, hleEq⟩ := hle
  obtain ⟨re, hreEq⟩ := hre
  simp only [tocLines]
  rw [hleEq]
  simp only [bindOk]
  rw [hreEq]
  simp only [bindOk]
  exact ⟨_, rfl⟩

theorem localServersSection_total (kvs : List (String × Json))
    (hloc : (match kvs.lookup "local" with
      | none => true
      | some (Json.obj svs) => svs.all (fun kv => conformsServerEntry kv.2)
      | some _ => false) = true) :
    ∃ ls, localServersSection (Json.obj kvs) = .ok ls := by
  simp only [localServersSection]
  rw [show pyIn "local" (Json.obj kvs)
        = Except.ok (kvs.any fun kv => kv.1 == "local") from rfl]
  simp only [bindOk]
  cases hb : kvs.any (fun kv => kv.1 == "local") with
  | false => simp
  | true =>
    obtain ⟨v, hv⟩ := lookup_isSome_of_any kvs "local" hb
    rw [hv] at hloc
    cases v with
    | obj svs =>
      have hall : svs.all (fun kv => conformsServerEntry kv.2) = true := by simpa using hloc
      obtain ⟨ys, hys⟩ := exMapM_ok_of_forall
        (fun kv => generate_local_server_section kv.1 kv.2) svs
        (fun kv hkv => gls_total kv.1 kv.2 (by simpa using List.all_eq_true.mp hall kv hkv))
      simp [pySubscript, hv, pyItems, bindOk, hys]
    | null => simp at hloc
    | bool b => simp at hloc
    | num m => simp at hloc
    | str s => simp at hloc
    | arr a => simp at hloc

theorem remoteToolsSection_total (kvs : List (String × Json))
    (hrem : (match kvs.lookup "remote" with
      | none => true
      | some (Json.obj svs) => svs.all (fun kv => conformsServerEntry kv.2)
      | some _ => false) = true) :
    ∃ ls, remoteToolsSection (Json.obj kvs) = .ok ls := by
  simp only [remoteToolsSection]
  rw [show pyIn "remote" (Json.obj kvs)
        = Except.ok (kvs.any fun kv => kv.1 == "remote") from rfl]
  simp only [bindOk]
  cases hb : kvs.any (fun kv => kv.1 == "remote") with
  | false => simp
  | true =>
    obtain ⟨v, hv⟩ := lookup_isSome_of_any kvs "remote" hb
    rw [hv] at hrem
    cases v with
    | obj svs =>
      have hall : svs.all (fun kv => conformsServerEntry kv.2) = true := by simpa using hrem
      obtain ⟨ys, hys⟩ := exMapM_ok_of_forall
        (fun kv => generate_remote_server_section kv.1 kv.2) svs
        (fun kv hkv => grs_total kv.1 kv.2 (by simpa using List.all_eq_true.mp hall kv hkv))
      simp [pySubscript, hv, pyItems, bindOk, hys]
    | null => simp at hrem
    | bool b => simp at hrem
    | num m => simp at hrem
    | str s => simp at hrem
    | arr a => simp at hrem

theorem render_total (c : Json) (h : conformsCatalog c = true) :
    ∃ doc, generate_tool_catalog_markdown c = .ok doc := by
  cases c with
  | null => simp [conformsCatalog] at h
  | bool b => simp [conformsCatalog] at h
  | num m => simp [conformsCatalog] at h
  | str s => simp [conformsCatalog] at h
  | arr a => simp [conformsCatalog] at h
  | obj kvs =>
    simp only [conformsCatalog, Bool.and_eq_true] at h
    obtain ⟨⟨-, hloc⟩, hrem⟩ := h
    obtain ⟨t, htEq⟩ := tocLines_total kvs hloc hrem
    obtain ⟨lsec, hlsEq⟩ := localServersSection_total kvs hloc
    obtain ⟨rsec, hrsEq⟩ := remoteToolsSection_total kvs hrem
    have hlu : lastUpdatedLines (Json.obj kvs) = Except.ok
        ["**Last Updated**: "
          ++ pyStr ((kvs.lookup "last_updated").getD (Json.str "Unknown")), ""] := rfl
    simp only [generate_tool_catalog_markdown]
    rw [hlu]
    simp only [bindOk]
    rw [htEq]
    simp only [bindOk]
    rw [hlsEq]
    simp only [bindOk]
    rw [hrsEq]
    simp only [bindOk]
    exact ⟨_, rfl⟩

/-!  The claims. -/

/-- C1: the renderer is deterministic and pure.  In this embedding the
renderer is a function of the catalog value alone (it consults no clock,
no randomness and no state — the only timestamp in the output is the
last_updated value carried in the input), so two renderings of equal
catalog documents are byte-identical. -/
theorem claim1_renderer_pure (c c' : Json) (h : c = c') :
    generate_tool_catalog_markdown c = generate_tool_catalog_markdown c' := by
  rw [h]

theorem claim1_renderer_pure_witness :
    generate_tool_catalog_markdown (Json.obj []) = generate_tool_catalog_markdown (Json.obj []) :=
  claim1_renderer_pure (Json.obj []) (Json.obj []) rfl

/-- C5: a catalog whose local and remote mappings are both empty renders to
exactly the fixed document: title and preamble, the last-updated line, a
table of contents holding only the three static entries (no nested server
entries), the two section headings with their fixed preamble sentences,
and the static configuration guide — no server subsections. -/
theorem claim5_empty_catalog (lu : String) :
    generate_tool_catalog_markdown (Json.obj
        [("last_updated", Json.str lu), ("local", Json.obj []), ("remote", Json.obj [])]) =
      Except.ok (String.intercalate "\n"
        (["# MCP Tool Catalog", "",
          "This document provides a comprehensive overview of all available MCP tools,",
          "both local and remote, for task-specific configuration generation.", "",
          "**Last Updated**: " ++ lu, "",
          "## Table of Contents", "",
          "- [Local Servers](#local-servers)",
          "- [Remote Tools](#remote-tools)",
          "- [Client Configuration Guide](#client-configuration-guide)", "",
          "## Local Servers", "",
          "Local servers run as separate processes and communicate via stdio transport.",
          "They require complete command configuration in the client config.", "",
          "## Remote Tools", "",
          "Remote tools are accessible through the Toolman proxy server.",
          "Only tool names are needed in the client config.", ""]
          ++ generate_configuration_guide)) := rfl

/-- C6: the CLI prints exactly one diagnostic and exits with status 1 when
the file content fails to decode (the message preserves the decode
diagnostic verbatim, and no markdown is printed), when the file is
missing, and when the argument count is wrong. -/
theorem claim6_cli_errors (prog f content e : String)
    (rf : String → Option String) (jl : String → Except String Json)
    (argv : List String) :
    (rf f = some content → jl content = Except.error e →
      main [prog, f] rf jl = (["Error: Invalid JSON in '" ++ f ++ "': " ++ e], 1)) ∧
    (rf f = none →
      main [prog, f] rf jl = (["Error: File '" ++ f ++ "' not found"], 1)) ∧
    (argv.length ≠ 2 →
      main argv rf jl =
        (["Usage: python3 generate-tool-catalog-markdown.py <tool-catalog.json>"], 1)) := by
  refine ⟨fun h1 h2 => ?_, fun h1 => ?_, fun h => ?_⟩
  · simp [main, h1, h2]
  · simp [main, h1]
  · cases argv with
    | nil => rfl
    | cons a t =>
      cases t with
      | nil => rfl
      | cons b t2 =>
        cases t2 with
        | nil => exact absurd rfl h
        | cons c t3 => rfl

theorem claim6_cli_errors_witness :
    main ["prog", "cat.json"] (fun _ => some "oops")
        (fun _ => Except.error "Expecting value: line 1 column 1 (char 0)") =
      (["Error: Invalid JSON in 'cat.json': Expecting value: line 1 column 1 (char 0)"], 1) ∧
    main ["prog", "missing.json"] (fun _ => none) (fun _ => Except.ok Json.null) =
      (["Error: File 'missing.json' not found"], 1) ∧
    main ["prog"] (fun _ => none) (fun _ => Except.ok Json.null) =
      (["Usage: python3 generate-tool-catalog-markdown.py <tool-catalog.json>"], 1) :=
  ⟨(claim6_cli_errors "prog" "cat.json" "oops" "Expecting value: line 1 column 1 (char 0)"
      (fun _ => some "oops") (fun _ => Except.error "Expecting value: line 1 column 1 (char 0)")
      []).1 rfl rfl,
   (claim6_cli_errors "prog" "missing.json" "" "" (fun _ => none)
      (fun _ => Except.ok Json.null) []).2.1 rfl,
   (claim6_cli_errors "prog" "x" "" "" (fun _ => none)
      (fun _ => Except.ok Json.null) ["prog"]).2.2 (by decide)⟩

/-- C7 counterexample: for the catalog with the non-object server entry
"filesystem" ↦ "oops", the renderer raises the generic Python attribute
error "'str' object has no attribute 'get'" — an error message that does
not name the server key "filesystem", contradicting the claim that the
structural error identifies the offending path. -/
theorem claim7_counterexample :
    generate_tool_catalog_markdown
        (Json.obj [("local", Json.obj [("filesystem", Json.str "oops")])]) =
      Except.error "'str' object has no attribute 'get'" ∧
    strContains "'str' object has no attribute 'get'" "filesystem" = false :=
  ⟨rfl, by decide⟩

/-- C7 (amended): the renderer raises only on structurally invalid input —
a non-object top level, or a non-object server entry — with the generic
Python attribute error naming only the offending value's type, not the
offending path or server key (the message is a constant independent of the
server key); on conforming catalogs, missing optional fields included, it
never raises. -/
theorem claim7_structural_errors (c v : Json) (name : String) :
    (isDict c = false → generate_tool_catalog_markdown c =
      Except.error ("'" ++ pyTypeName c ++ "' object has no attribute 'get'")) ∧
    (isDict v = false →
      generate_tool_catalog_markdown (Json.obj [("local", Json.obj [(name, v)])]) =
        Except.error ("'" ++ pyTypeName v ++ "' object has no attribute 'get'")) ∧
    (conformsCatalog c = true → ∃ doc, generate_tool_catalog_markdown c = Except.ok doc) := by
  refine ⟨fun h => ?_, fun h => ?_, fun h => render_total c h⟩
  · cases c with
    | null => rfl
    | bool b => rfl
    | num n => rfl
    | str s => rfl
    | arr a => rfl
    | obj kvs => simp [isDict] at h
  · cases v with
    | null => rfl
    | bool b => rfl
    | num n => rfl
    | str s => rfl
    | arr a => rfl
    | obj kvs => simp [isDict] at h

theorem claim7_structural_errors_witness :
    generate_tool_catalog_markdown (Json.arr []) =
      Except.error "'list' object has no attribute 'get'" ∧
    generate_tool_catalog_markdown (Json.obj [("local", Json.obj [("db", Json.num 3)])]) =
      Except.error "'int' object has no attribute 'get'" ∧
    ∃ doc, generate_tool_catalog_markdown
      (Json.obj [("local", Json.obj [("db", Json.obj [])])]) = Except.ok doc :=
  ⟨(claim7_structural_errors (Json.arr []) Json.null "x").1 rfl,
   (claim7_structural_errors Json.null (Json.num 3) "db").2.1 rfl,
   (claim7_structural_errors (Json.obj [("local", Json.obj [("db", Json.obj [])])])
      Json.null "x").2.2 rfl⟩

/-- C9: the table of contents lists, in order: the Local Servers entry, one
nested entry per local server whose display text is the title-cased server
name and whose anchor slug is exactly the lower-cased server name (no
other normalization), the Remote Tools entry, one nested entry per remote
server likewise, then the Client Configuration Guide entry. -/
theorem claim9_toc_entries (kvs ls rs : List (String × Json))
    (hl : kvs.lookup "local" = some (Json.obj ls))
    (hr : kvs.lookup "remote" = some (Json.obj rs)) :
    tocLines (Json.obj kvs) = Except.ok
      (["## Table of Contents", "", "- [Local Servers](#local-servers)"]
        ++ ls.map (fun kv => "  - [" ++ pyTitle kv.1 ++ "](#" ++ pyLower kv.1 ++ ")")
        ++ ["- [Remote Tools](#remote-tools)"]
        ++ rs.map (fun kv => "  - [" ++ pyTitle kv.1 ++ "](#" ++ pyLower kv.1 ++ ")")
        ++ ["- [Client Configuration Guide](#client-configuration-guide)", ""]) := by
  have hbl := lookup_some_any kvs "local" _ hl
  have hbr := lookup_some_any kvs "remote" _ hr
  simp only [tocLines]
  rw [show pyIn "local" (Json.obj kvs)
        = Except.ok (kvs.any fun kv => kv.1 == "local") from rfl]
  simp only [bindOk, hbl, if_true]
  simp only [pySubscript, hl, bindOk, pyKeys]
  rw [show pyIn "remote" (Json.obj kvs)
        = Except.ok (kvs.any fun kv => kv.1 == "remote") from rfl]
  simp only [bindOk, hbr, if_true]
  simp only [pySubscript, hr, bindOk, pyKeys]
  have he : (tocEntry ∘ Prod.fst) = (fun kv : String × Json =>
      "  - [" ++ pyTitle kv.1 ++ "](#" ++ pyLower kv.1 ++ ")") := funext fun kv => rfl
  simp only [List.map_map, he]

theorem claim9_toc_entries_witness :
    tocLines (Json.obj
        [("local", Json.obj [("file server", Json.obj []), ("gitX", Json.obj [])]),
         ("remote", Json.obj [("memOry", Json.obj [])])]) = Except.ok
      ["## Table of Contents", "", "- [Local Servers](#local-servers)",
       "  - [File Server](#file server)", "  - [Gitx](#gitx)",
       "- [Remote Tools](#remote-tools)", "  - [Memory](#memory)",
       "- [Client Configuration Guide](#client-configuration-guide)", ""] := by
  rw [claim9_toc_entries
    [("local", Json.obj [("file server", Json.obj []), ("gitX", Json.obj [])]),
     ("remote", Json.obj [("memOry", Json.obj [])])]
    [("file server", Json.obj []), ("gitX", Json.obj [])]
    [("memOry", Json.obj [])] rfl rfl]
  rfl

/-- C10: when the catalog has no last_updated key, the last-updated line
falls back to "Unknown": the header segment renders exactly the fallback
line, and any successfully rendered document is the line-join of the fixed
header followed by that fallback line. -/
theorem claim10_last_updated_fallback (kvs : List (String × Json))
    (h : kvs.lookup "last_updated" = none) :
    lastUpdatedLines (Json.obj kvs) = Except.ok ["**Last Updated**: Unknown", ""] ∧
    ∀ doc, generate_tool_catalog_markdown (Json.obj kvs) = Except.ok doc →
      ∃ rest, doc = String.intercalate "\n"
        (headerLines ++ ["**Last Updated**: Unknown", ""] ++ rest) := by
  have h1 : lastUpdatedLines (Json.obj kvs) = Except.ok ["**Last Updated**: Unknown", ""] := by
    rw [show lastUpdatedLines (Json.obj kvs) = Except.ok
          ["**Last Updated**: " ++ pyStr ((kvs.lookup "last_updated").getD (Json.str "Unknown")), ""]
        from rfl, h]
    rfl
  refine ⟨h1, fun doc hdoc => ?_⟩
  simp only [generate_tool_catalog_markdown] at hdoc
  rw [h1] at hdoc
  simp only [bindOk] at hdoc
  obtain ⟨t, -, hdoc2⟩ := bind_ok_inv hdoc
  obtain ⟨lsec, -, hdoc3⟩ := bind_ok_inv hdoc2
  obtain ⟨rsec, -, hdoc4⟩ := bind_ok_inv hdoc3
  injection hdoc4 with h4
  exact ⟨t ++ lsec ++ rsec ++ generate_configuration_guide,
    by rw [← h4]; simp [List.append_assoc]⟩

theorem claim10_last_updated_fallback_witness :
    lastUpdatedLines (Json.obj []) = Except.ok ["**Last Updated**: Unknown", ""] ∧
    ∃ rest, String.intercalate "\n"
        (headerLines ++ ["**Last Updated**: Unknown", ""]
          ++ (["## Table of Contents", "", "- [Local Servers](#local-servers)",
               "- [Remote Tools](#remote-tools)",
               "- [Client Configuration Guide](#client-configuration-guide)", "",
               "## Local Servers", "",
               "Local servers run as separate processes and communicate via stdio transport.",
               "They require complete command configuration in the client config.", "",
               "## Remote Tools", "",
               "Remote tools are accessible through the Toolman proxy server.",
               "Only tool names are needed in the client config.", ""]
            ++ generate_configuration_guide)) =
      String.intercalate "\n" (headerLines ++ ["**Last Updated**: Unknown", ""] ++ rest) :=
  ⟨(claim10_last_updated_fallback [] rfl).1,
   (claim10_last_updated_fallback [] rfl).2 _ rfl⟩

/-- C2: within a server section (local or remote), whenever the section
renders successfully the rendered lines end with exactly the per-tool
renderings of the input tool sequence concatenated in input order (tools
are never sorted or reordered): the tool blocks are the flattening of the
per-tool documentation lists, in order, after a header prefix. -/
theorem claim2_tool_order (name : String) (kvs : List (String × Json))
    (ts : List Json) (docs : List (List String)) (lsL lsR : List String)
    (htools : kvs.lookup "tools" = some (Json.arr ts))
    (hdocs : exMapM (fun t => generate_tool_documentation t "") ts = Except.ok docs) :
    (generate_local_server_section name (Json.obj kvs) = Except.ok lsL →
      ∃ hdr, lsL = hdr ++ docs.flatten) ∧
    (generate_remote_server_section name (Json.obj kvs) = Except.ok lsR →
      ∃ hdr, lsR = hdr ++ docs.flatten) := by
  have hget : ∀ (k : String) (d : Json),
      pyDictGet (Json.obj kvs) k d = Except.ok ((kvs.lookup k).getD d) := fun k d => rfl
  have tool_suffix : ∀ tl : List String,
      (if pyTruthy (Json.arr ts) then do
        let n ← pyLen (Json.arr ts)
        let items ← pyIter (Json.arr ts)
        let docs ← exMapM (fun tool => generate_tool_documentation tool "") items
        Except.ok (["**Available Tools** (" ++ toString n ++ " tools):", ""]
          ++ docs.flatten)
      else Except.ok [] : Except String (List String)) = Except.ok tl →
      docs.flatten <:+ tl := by
    intro tl htl
    cases ts with
    | nil =>
      simp only [pyTruthy] at htl
      injection htl with h
      injection hdocs with hd
      rw [← hd, ← h]
      simp
    | cons a as =>
      rw [show pyTruthy (Json.arr (a :: as)) = true from rfl, if_pos rfl,
        show pyLen (Json.arr (a :: as)) = Except.ok (a :: as).length from rfl] at htl
      simp only [bindOk] at htl
      rw [show pyIter (Json.arr (a :: as)) = Except.ok (a :: as) from rfl] at htl
      simp only [bindOk] at htl
      rw [hdocs] at htl
      simp only [bindOk] at htl
      injection htl with h
      rw [← h]
      exact List.suffix_append _ _
  constructor
  · intro hok
    simp only [generate_local_server_section, hget, bindOk, htools, Option.getD_some] at hok
    obtain ⟨cfg, -, hok2⟩ := bind_ok_inv hok
    obtain ⟨tl, htl, hok3⟩ := bind_ok_inv hok2
    injection hok3 with h3
    have h5 : tl <:+ lsL := by
      rw [← h3]
      exact List.suffix_append _ tl
    obtain ⟨hdr, hh⟩ := (tool_suffix tl htl).trans h5
    exact ⟨hdr, hh.symm⟩
  · intro hok
    simp only [generate_remote_server_section, hget, bindOk, htools, Option.getD_some] at hok
    obtain ⟨epl, -, hok2⟩ := bind_ok_inv hok
    obtain ⟨tl, htl, hok3⟩ := bind_ok_inv hok2
    injection hok3 with h3
    have h5 : tl <:+ lsR := by
      rw [← h3]
      exact List.suffix_append _ tl
    obtain ⟨hdr, hh⟩ := (tool_suffix tl htl).trans h5
    exact ⟨hdr, hh.symm⟩

theorem claim2_tool_order_witness :
    (∃ hdr, (["### Alpha", "", "**Description**: No description available", "",
        "**Available Tools** (2 tools):", "",
        "#### `alpha_tool`", "", "**Description**: No description available", "",
        "**Category**: general", "",
        "#### `beta_tool`", "", "**Description**: No description available", "",
        "**Category**: general", ""] : List String) = hdr ++
      ([["#### `alpha_tool`", "", "**Description**: No description available", "",
         "**Category**: general", ""],
        ["#### `beta_tool`", "", "**Description**: No description available", "",
         "**Category**: general", ""]] : List (List String)).flatten) ∧
    (∃ hdr, (["### Alpha", "", "**Description**: No description available", "",
        "**Available Tools** (2 tools):", "",
        "#### `alpha_tool`", "", "**Description**: No description available", "",
        "**Category**: general", "",
        "#### `beta_tool`", "", "**Description**: No description available", "",
        "**Category**: general", ""] : List String) = hdr ++
      ([["#### `alpha_tool`", "", "**Description**: No description available", "",
         "**Category**: general", ""],
        ["#### `beta_tool`", "", "**Description**: No description available", "",
         "**Category**: general", ""]] : List (List String)).flatten) :=
  ⟨(claim2_tool_order "alpha"
      [("tools", Json.arr [Json.obj [("name", Json.str "alpha_tool")],
                           Json.obj [("name", Json.str "beta_tool")]])]
      [Json.obj [("name", Json.str "alpha_tool")], Json.obj [("name", Json.str "beta_tool")]]
      [["#### `alpha_tool`", "", "**Description**: No description available", "",
        "**Category**: general", ""],
       ["#### `beta_tool`", "", "**Description**: No description available", "",
        "**Category**: general", ""]]
      (["### Alpha", "", "**Description**: No description available", "",
        "**Available Tools** (2 tools):", "",
        "#### `alpha_tool`", "", "**Description**: No description available", "",
        "**Category**: general", "",
        "#### `beta_tool`", "", "**Description**: No description available", "",
        "**Category**: general", ""])
      (["### Alpha", "", "**Description**: No description available", "",
        "**Available Tools** (2 tools):", "",
        "#### `alpha_tool`", "", "**Description**: No description available", "",
        "**Category**: general", "",
        "#### `beta_tool`", "", "**Description**: No description available", "",
        "**Category**: general", ""])
      rfl rfl).1 rfl,
   (claim2_tool_order "alpha"
      [("tools", Json.arr [Json.obj [("name", Json.str "alpha_tool")],
                           Json.obj [("name", Json.str "beta_tool")]])]
      [Json.obj [("name", Json.str "alpha_tool")], Json.obj [("name", Json.str "beta_tool")]]
      [["#### `alpha_tool`", "", "**Description**: No description available", "",
        "**Category**: general", ""],
       ["#### `beta_tool`", "", "**Description**: No description available", "",
        "**Category**: general", ""]]
      (["### Alpha", "", "**Description**: No description available", "",
        "**Available Tools** (2 tools):", "",
        "#### `alpha_tool`", "", "**Description**: No description available", "",
        "**Category**: general", "",
        "#### `beta_tool`", "", "**Description**: No description available", "",
        "**Category**: general", ""])
      (["### Alpha", "", "**Description**: No description available", "",
        "**Available Tools** (2 tools):", "",
        "#### `alpha_tool`", "", "**Description**: No description available", "",
        "**Category**: general", "",
        "#### `beta_tool`", "", "**Description**: No description available", "",
        "**Category**: general", ""])
      rfl rfl).2 rfl⟩

/-- C3: over any conforming tool entry, rendering succeeds (never fails on
a missing optional field); a tool without a category key renders the
category line with the "general" fallback, and a tool without a
description key renders the description line with the "No description
available" fallback. -/
theorem claim3_missing_field_fallbacks (kvs : List (String × Json)) (ind : String)
    (hconf : conformsTool (Json.obj kvs) = true) :
    (∃ ls, generate_tool_documentation (Json.obj kvs) ind = Except.ok ls) ∧
    (kvs.lookup "category" = none → ∀ ls,
      generate_tool_documentation (Json.obj kvs) ind = Except.ok ls →
      (ind ++ "**Category**: " ++ "general") ∈ ls) ∧
    (kvs.lookup "description" = none → ∀ ls,
      generate_tool_documentation (Json.obj kvs) ind = Except.ok ls →
      (ind ++ "**Description**: " ++ "No description available") ∈ ls) := by
  refine ⟨gtd_total _ ind hconf, fun hcat ls hok => ?_, fun hdesc ls hok => ?_⟩
  · obtain ⟨rest, hrest⟩ := gtd_ok_head kvs ind ls hok
    rw [hrest, hcat]
    simp [pyStr]
  · obtain ⟨rest, hrest⟩ := gtd_ok_head kvs ind ls hok
    rw [hrest, hdesc]
    simp [pyStr]

theorem claim3_missing_field_fallbacks_witness :
    (∃ ls, generate_tool_documentation (Json.obj []) "" = Except.ok ls) ∧
    ("" ++ "**Category**: " ++ "general") ∈
      (["#### `unknown`", "", "**Description**: No description available", "",
        "**Category**: general", ""] : List String) ∧
    ("" ++ "**Description**: " ++ "No description available") ∈
      (["#### `unknown`", "", "**Description**: No description available", "",
        "**Category**: general", ""] : List String) :=
  ⟨(claim3_missing_field_fallbacks [] "" rfl).1,
   (claim3_missing_field_fallbacks [] "" rfl).2.1 rfl
     ["#### `unknown`", "", "**Description**: No description available", "",
      "**Category**: general", ""] rfl,
   (claim3_missing_field_fallbacks [] "" rfl).2.2 rfl
     ["#### `unknown`", "", "**Description**: No description available", "",
      "**Category**: general", ""] rfl⟩

/-- C4: for a tool with a parameter schema, a parameter whose name is in
the schema's required list is rendered with the " *(required)*" marker
suffix, and a parameter whose name is not in that list is rendered without
it (empty marker); both hold simultaneously within one successfully
rendered tool. -/
theorem claim4_required_marker (kvs skvs ps pkvs : List (String × Json))
    (rs : List Json) (pn ind : String) (ls : List String)
    (hschema : kvs.lookup "input_schema" = some (Json.obj skvs))
    (hprops : skvs.lookup "properties" = some (Json.obj ps))
    (hreq : skvs.lookup "required" = some (Json.arr rs))
    (hmem : (pn, Json.obj pkvs) ∈ ps)
    (hok : generate_tool_documentation (Json.obj kvs) ind = Except.ok ls) :
    (pyIn pn (Json.arr rs) = Except.ok true →
      (ind ++ "- `" ++ pn ++ "` ("
        ++ pyStr ((pkvs.lookup "type").getD (Json.str "unknown")) ++ ")"
        ++ " *(required)*" ++ ": "
        ++ pyStr ((pkvs.lookup "description").getD (Json.str "No description"))) ∈ ls) ∧
    (pyIn pn (Json.arr rs) = Except.ok false →
      (ind ++ "- `" ++ pn ++ "` ("
        ++ pyStr ((pkvs.lookup "type").getD (Json.str "unknown")) ++ ")"
        ++ "" ++ ": "
        ++ pyStr ((pkvs.lookup "description").getD (Json.str "No description"))) ∈ ls) := by
  have hget : ∀ (k : String) (d : Json),
      pyDictGet (Json.obj kvs) k d = Except.ok ((kvs.lookup k).getD d) := fun k d => rfl
  simp only [generate_tool_documentation, hget, bindOk] at hok
  obtain ⟨uc, -, hok2⟩ := bind_ok_inv hok
  simp only [hschema, Option.getD_some] at hok2
  cases skvs with
  | nil => simp at hprops
  | cons s1 srest =>
    rw [show (pyTruthy (Json.obj (s1 :: srest)) && isDict (Json.obj (s1 :: srest)))
          = true from rfl, if_pos rfl] at hok2
    have hget2 : ∀ (k : String) (d : Json),
        pyDictGet (Json.obj (s1 :: srest)) k d
          = Except.ok (((s1 :: srest).lookup k).getD d) := fun k d => rfl
    simp only [hget2, bindOk, hprops, hreq, Option.getD_some] at hok2
    cases ps with
    | nil => exact absurd hmem (List.not_mem_nil _)
    | cons p1 prest =>
      rw [show pyTruthy (Json.obj (p1 :: prest)) = true from rfl, if_pos rfl,
        show pyItems (Json.obj (p1 :: prest)) = Except.ok (p1 :: prest) from rfl] at hok2
      simp only [bindOk] at hok2
      obtain ⟨pl, hplE, hok3⟩ := bind_ok_inv hok2
      obtain ⟨bullets, hbul, hplE2⟩ := bind_ok_inv hplE
      injection hplE2 with hpl2
      injection hok3 with hls
      obtain ⟨y, hy, hybul⟩ := exMapM_mem _ _ _ hbul (pn, Json.obj pkvs) hmem
      injection hy with hyval
      have hmemy : ∀ z : String, z = y → z ∈ ls := by
        intro z hz
        rw [hz, ← hls, ← hpl2]
        simp [hybul]
      refine ⟨fun hT => ?_, fun hF => ?_⟩
      · injection hT with hTa
        refine hmemy _ ?_
        rw [← hyval, hTa]
        simp
      · injection hF with hFa
        refine hmemy _ ?_
        rw [← hyval, hFa]
        simp

theorem claim4_required_marker_witness :
    ("- `path` (string) *(required)*: No description") ∈
      (["#### `copy`", "", "**Description**: No description available", "",
        "**Category**: general", "", "**Parameters**:",
        "- `path` (string) *(required)*: No description",
        "- `mode` (unknown): No description", ""] : List String) ∧
    ("- `mode` (unknown): No description") ∈
      (["#### `copy`", "", "**Description**: No description available", "",
        "**Category**: general", "", "**Parameters**:",
        "- `path` (string) *(required)*: No description",
        "- `mode` (unknown): No description", ""] : List String) :=
  ⟨(claim4_required_marker
      [("name", Json.str "copy"),
       ("input_schema", Json.obj [
         ("properties", Json.obj [("path", Json.obj [("type", Json.str "string")]),
                                  ("mode", Json.obj [])]),
         ("required", Json.arr [Json.str "path"])])]
      [("properties", Json.obj [("path", Json.obj [("type", Json.str "string")]),
                                ("mode", Json.obj [])]),
       ("required", Json.arr [Json.str "path"])]
      [("path", Json.obj [("type", Json.str "string")]), ("mode", Json.obj [])]
      [("type", Json.str "string")]
      [Json.str "path"] "path" ""
      ["#### `copy`", "", "**Description**: No description available", "",
       "**Category**: general", "", "**Parameters**:",
       "- `path` (string) *(required)*: No description",
       "- `mode` (unknown): No description", ""]
      rfl rfl rfl (by simp) rfl).1 rfl,
   (claim4_required_marker
      [("name", Json.str "copy"),
       ("input_schema", Json.obj [
         ("properties", Json.obj [("path", Json.obj [("type", Json.str "string")]),
                                  ("mode", Json.obj [])]),
         ("required", Json.arr [Json.str "path"])])]
      [("properties", Json.obj [("path", Json.obj [("type", Json.str "string")]),
                                ("mode", Json.obj [])]),
       ("required", Json.arr [Json.str "path"])]
      [("path", Json.obj [("type", Json.str "string")]), ("mode", Json.obj [])]
      []
      [Json.str "path"] "mode" ""
      ["#### `copy`", "", "**Description**: No description available", "",
       "**Category**: general", "", "**Parameters**:",
       "- `path` (string) *(required)*: No description",
       "- `mode` (unknown): No description", ""]
      rfl rfl rfl (by simp) rfl).2 rfl⟩

/-- C8: end-to-end example: rendering the concrete catalog whose sole local
server "filesystem" has description "FS ops", command "npx",
args ["-y", "pkg"] and one tool read_file of category io produces a
document containing the "### Filesystem" heading, a fenced configuration
block with the command line and the comma-joined quoted args line, the
tool block heading for read_file, and its category line (the document is
the newline-join of its lines; the fenced block is a contiguous run of
lines). -/
theorem claim8_end_to_end :
    ∃ lines, generate_tool_catalog_markdown (Json.obj [("local", Json.obj [("filesystem",
        Json.obj [("description", Json.str "FS ops"), ("command", Json.str "npx"),
          ("args", Json.arr [Json.str "-y", Json.str "pkg"]),
          ("tools", Json.arr [Json.obj [("name", Json.str "read_file"),
            ("description", Json.str "Read a file"), ("category", Json.str "io")]])])])]) =
      Except.ok (String.intercalate "\n" lines) ∧
    "### Filesystem" ∈ lines ∧
    (["```json", "\x7b", "  \"command\": \"npx\"", "  \"args\": [\"-y\", \"pkg\"]"] <:+: lines) ∧
    "#### `read_file`" ∈ lines ∧
    "**Category**: io" ∈ lines := by
  refine
    ⟨["# MCP Tool Catalog", "", "This document provides a comprehensive overview of all available MCP tools,",
       "both local and remote, for task-specific configuration generation.", "", "**Last Updated**: Unknown",
       "", "## Table of Contents", "",
       "- [Local Servers](#local-servers)", "  - [Filesystem](#filesystem)", "- [Remote Tools](#remote-tools)",
       "- [Client Configuration Guide](#client-configuration-guide)", "", "## Local Servers",
       "", "Local servers run as separate processes and communicate via stdio transport.", "They require complete command configuration in the client config.",
       "", "### Filesystem", "",
       "**Description**: FS ops", "", "**Server Configuration**:",
       "```json", "\x7b", "  \"command\": \"npx\"",
       "  \"args\": [\"-y\", \"pkg\"]", "  \"workingDirectory\": \"project_root\"", "\x7d",
       "```", "", "**Available Tools** (1 tools):",
       "", "#### `read_file`", "",
       "**Description**: Read a file", "", "**Category**: io",
       "", "## Remote Tools", "",
       "Remote tools are accessible through the Toolman proxy server.", "Only tool names are needed in the client config.", "",
       "## Client Configuration Guide", "", "When generating task-specific client configurations, use this structure:",
       "", "### Expected client-config.json Structure", "",
       "```json", "\x7b", "  \"remoteTools\": [",
       "    \"kubernetes_listResources\",", "    \"memory_create_entities\"", "  ],",
       "  \"localServers\": \x7b", "    \"filesystem\": \x7b", "      \"command\": \"npx\",",
       "      \"args\": [\"-y\", \"@modelcontextprotocol/server-filesystem\", \"/workspace\"],", "      \"tools\": [\"read_file\", \"write_file\", \"list_directory\"],", "      \"workingDirectory\": \"project_root\"",
       "    \x7d", "  \x7d", "\x7d",
       "```", "", "### Key Points",
       "", "- **Remote Tools**: Array of specific tool names (not server names)", "- **Local Servers**: Object with complete server configurations",
       "- **Tools Selection**: Only include tools actually needed for the specific task", "- **Working Directory**: Use `project_root` as the standard working directory", "",
       "### Tool Selection Guidelines", "", "1. **Read Task Requirements**: Understand what the task needs to accomplish",
       "2. **Match Tools to Actions**: Select tools that directly support the required actions", "3. **Minimize Tool Set**: Only include tools that are actually needed", "4. **Consider Dependencies**: Include tools needed for prerequisite actions",
       ""],
     rfl, by decide, by decide, by decide, by decide⟩

end ToolCatalog
